import Mathlib

/-
Shallow embedding of `src/osdpretty.cpp` (Clementine's OSDPretty widget).

The widget's own code is modelled faithfully, member by member.  Toolkit
(Qt) primitives that the file calls are modelled by small explicit
definitions with their documented behaviour:
  * `QDesktopWidget::availableGeometry(int)` falls back to the default
    screen's geometry for an invalid index (this includes the `-1`
    sentinel the source itself uses);
  * `QDesktopWidget::availableGeometry(const QPoint&)` uses the screen
    containing the point, falling back to the default screen;
  * `QTimer` (single shot) is modelled by its configured interval and,
    while running, the absolute time at which it will fire; `start()`
    (re)schedules that deadline at `now + interval`; `setInterval` on an
    active timer stops and restarts it with the new interval (its
    documented behaviour), so a pending deadline becomes `now + msec`,
    while an idle timer only has its interval updated;
  * `QWidget::update()` schedules a repaint; we record that request in
    the flag `update_requested`;
  * `QImage::scaled(w, h, Qt::KeepAspectRatio, ...)` uses the integer
    arithmetic of `QSize::scale`, reproduced in `scaleKeepAspect`;
  * `QColor::darker(factor)` is kept symbolic: the border pen records the
    base colour and the factor instead of computing the darkened RGB.
Widget coordinates are C++ `int`s, modelled as `Int` (no overflow occurs
in the quantities involved); `qreal` opacities are modelled as `Rat`.
-/

namespace OSDPretty

/-- A QPoint: a pair of integer coordinates. -/
structure QPoint where
  x : Int
  y : Int
deriving Repr, DecidableEq

/-- A QRect in Qt's historical convention: `right = left + width - 1`,
`bottom = top + height - 1`.  The source only reads `left`, `top`,
`right` and `bottom`, so we store exactly those. -/
structure QRect where
  left : Int
  top : Int
  right : Int
  bottom : Int
deriving Repr, DecidableEq

/-- Does the rectangle contain the point (Qt `QRect::contains`)? -/
def QRect.containsPoint (r : QRect) (p : QPoint) : Bool :=
  r.left ≤ p.x && p.x ≤ r.right && r.top ≤ p.y && p.y ≤ r.bottom

/-- A widget size in integer pixels (`QSize` used for widget geometry). -/
structure WSize where
  w : Int
  h : Int
deriving Repr, DecidableEq

/-- An image size in pixels; image dimensions are never negative, so
`Nat` is used (`QSize` of a `QImage`). -/
structure NSize where
  w : Nat
  h : Nat
deriving Repr, DecidableEq

/-- `qBound(min, val, max)` from qglobal.h: `qMax(min, qMin(max, val))`. -/
def qBound (lo v hi : Int) : Int := max lo (min hi v)

/-- The mode enumeration of OSDPretty. -/
inductive Mode where
  | Mode_Popup
  | Mode_Draggable
deriving Repr, DecidableEq

/-- The two cursor shapes the widget ever sets. -/
inductive CursorShape where
  | ArrowCursor
  | OpenHandCursor
deriving Repr, DecidableEq

/-- The desktop environment: the available geometries of the connected
screens, and the available geometry of the default (primary) screen,
which `QDesktopWidget` substitutes for any invalid screen index. -/
structure Desktop where
  screens : List QRect
  primaryGeom : QRect
deriving Repr, DecidableEq

/-- `QDesktopWidget::screenCount()`. -/
def Desktop.screenCount (d : Desktop) : Int := d.screens.length

/-- `QDesktopWidget::availableGeometry(int screen)`: the geometry of the
screen with that index; any invalid index (negative, including the `-1`
default sentinel, or at least `screenCount`) yields the default screen's
geometry. -/
def Desktop.availableGeometry (d : Desktop) (i : Int) : QRect :=
  if 0 ≤ i then d.screens.getD i.toNat d.primaryGeom else d.primaryGeom

/-- `QDesktopWidget::screenNumber(const QPoint&)`: the index of the
screen containing the point, or `-1` if none does. -/
def Desktop.screenNumber (d : Desktop) (p : QPoint) : Int :=
  match d.screens.findIdx? (fun r => r.containsPoint p) with
  | some i => (i : Int)
  | none => -1

/-- `QDesktopWidget::availableGeometry(const QPoint&)`: the available
geometry of the screen under the point. -/
def Desktop.availableGeometryAt (d : Desktop) (p : QPoint) : QRect :=
  d.availableGeometry (d.screenNumber p)

/-- `QSize::scale(QSize(bw, bh), Qt::KeepAspectRatio)` from qsize.cpp,
the arithmetic behind `QImage::scaled(bw, bh, Qt::KeepAspectRatio, ...)`:
`rw = bh * w / h`; if `rw ≤ bw` the result is `(rw, bh)`, otherwise
`(bw, bw * h / w)`.  A zero dimension short-circuits to the box size. -/
def scaleKeepAspect (sz : NSize) (bw bh : Nat) : NSize :=
  if sz.w = 0 ∨ sz.h = 0 then ⟨bw, bh⟩
  else
    let rw := bh * sz.w / sz.h
    if rw ≤ bw then ⟨rw, bh⟩ else ⟨bw, bw * sz.h / sz.w⟩

/-- The state of one OSDPretty widget together with the slice of toolkit
state the source manipulates (visibility, geometry, child widgets,
timer, pending repaint). -/
structure OSDState where
  /-- `mode_` -/
  mode : Mode
  /-- `foreground_color_` as a packed QRgb value. -/
  foreground_color : Int
  /-- `background_color_` as a packed QRgb value. -/
  background_color : Int
  /-- `background_opacity_` (`qreal`). -/
  background_opacity : Rat
  /-- `popup_display_` -/
  popup_display : Int
  /-- `popup_pos_` -/
  popup_pos : QPoint
  /-- The interval configured on `timeout_` (ms). -/
  timer_interval : Nat
  /-- `some t` iff the single-shot `timeout_` timer is running and will
  fire (hiding the widget) at absolute time `t`. -/
  timer_deadline : Option Nat
  /-- `QWidget::isVisible()` -/
  visible : Bool
  /-- `QWidget::pos()` -/
  widget_pos : QPoint
  /-- `QWidget::width()` / `height()` -/
  widget_width : Int
  widget_height : Int
  /-- `QWidget::sizeHint()` as determined by the layout and the current
  content; a toolkit input to `Reposition`. -/
  size_hint : WSize
  /-- The pointer cursor set with `setCursor`. -/
  cursor : CursorShape
  /-- Whether `ui_.icon` is shown. -/
  icon_visible : Bool
  /-- The size of the pixmap currently set on `ui_.icon`, if any. -/
  icon_pixmap : Option NSize
  /-- `ui_.summary->text()` -/
  summary_text : String
  /-- `ui_.message->text()` -/
  message_text : String
  /-- WindowText colour of `ui_.summary`'s palette. -/
  summary_palette_color : Int
  /-- WindowText colour of `ui_.message`'s palette. -/
  message_palette_color : Int
  /-- `QWidget::windowOpacity()` -/
  window_opacity : Rat
  /-- True iff a repaint of the widget has been requested via
  `QWidget::update()`. -/
  update_requested : Bool
  /-- `original_window_pos_` (valid during a drag). -/
  original_window_pos : QPoint
  /-- `drag_start_pos_` (valid during a drag). -/
  drag_start_pos : QPoint
deriving Repr, DecidableEq

/-- `kDropShadowSize = 13` -/
def kDropShadowSize : Int := 13

/-- `kBorderRadius = 10` -/
def kBorderRadius : Int := 10

/-- `kMaxIconSize = 100` -/
def kMaxIconSize : Nat := 100

/-- `QWidget::update()`: schedule a repaint. -/
def update (s : OSDState) : OSDState :=
  { s with update_requested := true }

/-- `QWidget::hide()`: the widget becomes hidden. -/
def hide (s : OSDState) : OSDState :=
  { s with visible := false }

/-- `timeout_->start()` at absolute time `now`: (re)schedule the single
shot at `now + interval`, cancelling any pending fire. -/
def timerStart (now : Nat) (s : OSDState) : OSDState :=
  { s with timer_deadline := some (now + s.timer_interval) }

/-- `OSDPretty::SetMode`: store the mode and set the matching cursor. -/
def SetMode (mode : Mode) (s : OSDState) : OSDState :=
  match mode with
  | Mode.Mode_Popup =>
      { s with mode := mode, cursor := CursorShape.ArrowCursor }
  | Mode.Mode_Draggable =>
      { s with mode := mode, cursor := CursorShape.OpenHandCursor }

/-- `OSDPretty::Reposition`, step "resolve the target geometry": the
screen index is replaced by the `-1` sentinel when it is at least
`screenCount`, then looked up on the desktop. -/
def repositionGeometry (d : Desktop) (s : OSDState) : QRect :=
  let screen : Int :=
    if d.screenCount ≤ s.popup_display then -1 else s.popup_display
  d.availableGeometry screen

/-- `OSDPretty::Reposition`: resize to the size hint (the effect of
`layout()->activate(); resize(sizeHint())`), resolve the target screen,
add the stored offset to that screen's origin and move to the
`qBound`-clamped result. -/
def Reposition (d : Desktop) (s : OSDState) : OSDState :=
  let s := { s with widget_width := s.size_hint.w,
                    widget_height := s.size_hint.h }
  let geometry := repositionGeometry d s
  let x := s.popup_pos.x + geometry.left
  let y := s.popup_pos.y + geometry.top
  { s with widget_pos :=
      ⟨qBound 0 x (geometry.right - s.widget_width),
       qBound 0 y (geometry.bottom - s.widget_height)⟩ }

/-- `OSDPretty::SetMessage(summary, message, image)` at absolute time
`now`; `image = none` models a null `QImage`. -/
def SetMessage (d : Desktop) (now : Nat) (summary message : String)
    (image : Option NSize) (s : OSDState) : OSDState :=
  let s1 :=
    match image with
    | some sz =>
        { s with icon_pixmap := some (scaleKeepAspect sz kMaxIconSize kMaxIconSize),
                 icon_visible := true }
    | none => { s with icon_visible := false }
  let s2 := { s1 with summary_text := summary, message_text := message }
  let s3 := if s2.visible = true then Reposition d s2 else s2
  if s3.visible = true ∧ s3.mode = Mode.Mode_Popup then timerStart now s3 else s3

/-- `OSDPretty::showEvent` together with the visibility flip that
`QWidget::show()` performs before delivering it: the widget becomes
visible, repositions, resets window opacity, and in Popup mode starts
the auto-hide timer. -/
def showEvent (d : Desktop) (now : Nat) (s : OSDState) : OSDState :=
  let s := { s with visible := true }
  let s := Reposition d s
  let s := { s with window_opacity := 1 }
  if s.mode = Mode.Mode_Popup then timerStart now s else s

/-- `OSDPretty::enterEvent`. -/
def enterEvent (s : OSDState) : OSDState :=
  if s.mode = Mode.Mode_Popup then { s with window_opacity := 25/100 } else s

/-- `OSDPretty::leaveEvent`. -/
def leaveEvent (s : OSDState) : OSDState :=
  { s with window_opacity := 1 }

/-- A mouse event: widget-local and global pointer positions. -/
structure QMouseEvent where
  pos : QPoint
  globalPos : QPoint
deriving Repr, DecidableEq

/-- `OSDPretty::mousePressEvent`: dismiss in Popup mode; record the drag
origin in Draggable mode. -/
def mousePressEvent (e : QMouseEvent) (s : OSDState) : OSDState :=
  if s.mode = Mode.Mode_Popup then hide s
  else
    { s with original_window_pos := s.widget_pos,
             drag_start_pos := e.globalPos }

/-- `OSDPretty::mouseMoveEvent`: in Draggable mode, move the widget by
the pointer delta since the press, clamped into the available geometry
of the screen under the current pointer position. -/
def mouseMoveEvent (d : Desktop) (e : QMouseEvent) (s : OSDState) : OSDState :=
  if s.mode = Mode.Mode_Draggable then
    let delta : QPoint := ⟨e.globalPos.x - s.drag_start_pos.x,
                           e.globalPos.y - s.drag_start_pos.y⟩
    let new_pos : QPoint := ⟨s.original_window_pos.x + delta.x,
                             s.original_window_pos.y + delta.y⟩
    let geometry := d.availableGeometryAt e.globalPos
    { s with widget_pos :=
        ⟨qBound geometry.left new_pos.x (geometry.right - s.widget_width),
         qBound geometry.top new_pos.y (geometry.bottom - s.widget_height)⟩ }
  else s

/-- `OSDPretty::set_background_color`. -/
def set_background_color (color : Int) (s : OSDState) : OSDState :=
  let s := { s with background_color := color }
  if s.visible = true then update s else s

/-- `OSDPretty::set_background_opacity`. -/
def set_background_opacity (opacity : Rat) (s : OSDState) : OSDState :=
  let s := { s with background_opacity := opacity }
  if s.visible = true then update s else s

/-- `OSDPretty::set_foreground_color`: store the colour and apply it to
the WindowText role of the two labels' palettes.  Note: unlike the two
setters above, the source contains no `update()` call here. -/
def set_foreground_color (color : Int) (s : OSDState) : OSDState :=
  { s with foreground_color := color,
           summary_palette_color := color,
           message_palette_color := color }

/-- `OSDPretty::set_popup_duration`: `timeout_->setInterval(msec)` at
absolute time `now`.  `QTimer::setInterval` stores the new interval and,
when the timer is active, stops and restarts it with that interval, so a
pending single-shot deadline is rescheduled to `now + msec`; an idle
timer stays idle. -/
def set_popup_duration (now : Nat) (msec : Nat) (s : OSDState) : OSDState :=
  let s := { s with timer_interval := msec }
  match s.timer_deadline with
  | some _ => { s with timer_deadline := some (now + msec) }
  | none => s

/-- An RGBA colour with explicit components (`QColor(r, g, b, a)`). -/
structure ColorRGBA where
  r : Nat
  g : Nat
  b : Nat
  a : Nat
deriving Repr, DecidableEq

/-- The painter's brush.  `solid c` is a brush built from a packed QRgb
colour; `linearGradient x1 y1 x2 y2 stops` is a `QLinearGradient` with
its colour stops; `noBrush` is a default-constructed `QBrush()`. -/
inductive Brush where
  | noBrush
  | solid (rgb : Int)
  | linearGradient (x1 y1 x2 y2 : Int) (stops : List (Rat × ColorRGBA))
deriving Repr, DecidableEq

/-- The painter's pen.  `defaultPen` is a default-constructed `QPen()`;
`darkerPen base factor width` records `QPen(QColor(base).darker(factor),
width)` with the `darker` call kept symbolic. -/
inductive Pen where
  | defaultPen
  | darkerPen (base : Int) (factor : Int) (width : Int)
deriving Repr, DecidableEq

/-- One draw call issued by the paint routine, with the painter state it
was issued under where that state matters. -/
inductive PaintOp where
  /-- `p.drawPixmap(x, y, shadow_corner_[idx])` -/
  | drawPixmapCorner (x y : Int) (idx : Nat)
  /-- `p.drawTiledPixmap(x, y, w, h, shadow_edge_[idx])` -/
  | drawTiledPixmapEdge (x y w h : Int) (idx : Nat)
  /-- `p.drawRoundedRect(box, xRad, yRad)` under the given brush, pen
  and painter opacity. -/
  | drawRoundedRect (box : QRect) (xRad yRad : Int)
      (brush : Brush) (pen : Pen) (opacity : Rat)
deriving Repr, DecidableEq

/-- The mutable `QPainter` state the source manipulates, plus the trace
of draw calls issued so far. -/
structure Painter where
  brush : Brush
  pen : Pen
  opacity : Rat
  antialiasing : Bool
  highQualityAntialiasing : Bool
  ops : List PaintOp
deriving Repr, DecidableEq

/-- `QPainter p(this)`: default brush `Qt::NoBrush`, default pen, full
opacity, no render hints, nothing drawn yet. -/
def Painter.init : Painter :=
  ⟨Brush.noBrush, Pen.defaultPen, 1, false, false, []⟩

/-- `p.setRenderHint(QPainter::Antialiasing)` -/
def Painter.setAntialiasing (p : Painter) : Painter :=
  { p with antialiasing := true }

/-- `p.setRenderHint(QPainter::HighQualityAntialiasing)` -/
def Painter.setHighQualityAntialiasing (p : Painter) : Painter :=
  { p with highQualityAntialiasing := true }

/-- `p.setBrush(b)` -/
def Painter.setBrush (p : Painter) (b : Brush) : Painter :=
  { p with brush := b }

/-- `p.setPen(pe)` -/
def Painter.setPen (p : Painter) (pe : Pen) : Painter :=
  { p with pen := pe }

/-- `p.setOpacity(o)` -/
def Painter.setOpacity (p : Painter) (o : Rat) : Painter :=
  { p with opacity := o }

/-- `p.drawPixmap(x, y, shadow_corner_[idx])` -/
def Painter.drawPixmapCorner (p : Painter) (x y : Int) (idx : Nat) : Painter :=
  { p with ops := p.ops ++ [PaintOp.drawPixmapCorner x y idx] }

/-- `p.drawTiledPixmap(x, y, w, h, shadow_edge_[idx])` -/
def Painter.drawTiledPixmapEdge (p : Painter) (x y w h : Int) (idx : Nat) : Painter :=
  { p with ops := p.ops ++ [PaintOp.drawTiledPixmapEdge x y w h idx] }

/-- `p.drawRoundedRect(box, xRad, yRad)`: records the draw call under
the painter's current brush, pen and opacity. -/
def Painter.drawRoundedRect (p : Painter) (box : QRect) (xRad yRad : Int) : Painter :=
  { p with ops := p.ops ++ [PaintOp.drawRoundedRect box xRad yRad p.brush p.pen p.opacity] }

/-- `QRect::adjusted(dx1, dy1, dx2, dy2)`. -/
def QRect.adjusted (r : QRect) (dx1 dy1 dx2 dy2 : Int) : QRect :=
  ⟨r.left + dx1, r.top + dy1, r.right + dx2, r.bottom + dy2⟩

/-- `QWidget::rect()`: `(0, 0, width()-1, height()-1)`. -/
def widgetRect (s : OSDState) : QRect :=
  ⟨0, 0, s.widget_width - 1, s.widget_height - 1⟩

/-- `OSDPretty::paintEvent`, transcribed draw call by draw call: shadow
corners, tiled shadow edges, the background fill at the configured
opacity, the white gradient overlay at full opacity, and the border
stroke. -/
def paintEvent (s : OSDState) : Painter :=
  let p := Painter.init
  let p := p.setAntialiasing
  let p := p.setHighQualityAntialiasing
  let box := (widgetRect s).adjusted kDropShadowSize kDropShadowSize
    (-kDropShadowSize) (-kDropShadowSize)
  let kShadowCornerSize := kDropShadowSize + kBorderRadius
  let p := p.drawPixmapCorner 0 0 0
  let p := p.drawPixmapCorner (s.widget_width - kShadowCornerSize) 0 1
  let p := p.drawPixmapCorner (s.widget_width - kShadowCornerSize)
    (s.widget_height - kShadowCornerSize) 2
  let p := p.drawPixmapCorner 0 (s.widget_height - kShadowCornerSize) 3
  let p := p.drawTiledPixmapEdge kShadowCornerSize 0
    (s.widget_width - kShadowCornerSize * 2) kDropShadowSize 0
  let p := p.drawTiledPixmapEdge (s.widget_width - kDropShadowSize) kShadowCornerSize
    kDropShadowSize (s.widget_height - kShadowCornerSize * 2) 1
  let p := p.drawTiledPixmapEdge kShadowCornerSize (s.widget_height - kDropShadowSize)
    (s.widget_width - kShadowCornerSize * 2) kDropShadowSize 2
  let p := p.drawTiledPixmapEdge 0 kShadowCornerSize
    kDropShadowSize (s.widget_height - kShadowCornerSize * 2) 3
  let p := p.setBrush (Brush.solid s.background_color)
  let p := p.setPen Pen.defaultPen
  let p := p.setOpacity s.background_opacity
  let p := p.drawRoundedRect box kBorderRadius kBorderRadius
  let p := p.setBrush (Brush.linearGradient 0 0 0 s.widget_height
    [(0, ⟨255, 255, 255, 130⟩), (1, ⟨255, 255, 255, 50⟩)])
  let p := p.setOpacity 1
  let p := p.drawRoundedRect box kBorderRadius kBorderRadius
  let p := p.setBrush Brush.noBrush
  let p := p.setPen (Pen.darkerPen s.background_color 150 2)
  p.drawRoundedRect box kBorderRadius kBorderRadius

/-- Has the auto-hide timer fired by absolute time `t` (hiding the
widget), absent any further interaction? -/
def autoHiddenBy (s : OSDState) (t : Nat) : Bool :=
  match s.timer_deadline with
  | some deadline => decide (deadline ≤ t)
  | none => false

/-- Is the widget still visible at absolute time `t`, absent any further
interaction after the state `s` was produced? -/
def visibleAt (s : OSDState) (t : Nat) : Bool :=
  s.visible && !(autoHiddenBy s t)

/-- A desktop with a single 1920x1080 screen at the origin. -/
def baseDesktop : Desktop :=
  ⟨[⟨0, 0, 1919, 1079⟩], ⟨0, 0, 1919, 1079⟩⟩

/-- A desktop with a second 1920x1080 screen to the right of the first;
the default screen is the one at the origin. -/
def twoScreenDesktop : Desktop :=
  ⟨[⟨0, 0, 1919, 1079⟩, ⟨1920, 0, 3839, 1079⟩], ⟨0, 0, 1919, 1079⟩⟩

/-- A concrete widget state used to instantiate the theorems. -/
def baseState : OSDState where
  mode := Mode.Mode_Popup
  foreground_color := 0
  background_color := 6723299
  background_opacity := 85/100
  popup_display := 0
  popup_pos := ⟨0, 0⟩
  timer_interval := 5000
  timer_deadline := none
  visible := false
  widget_pos := ⟨0, 0⟩
  widget_width := 200
  widget_height := 100
  size_hint := ⟨200, 100⟩
  cursor := CursorShape.ArrowCursor
  icon_visible := false
  icon_pixmap := none
  summary_text := ""
  message_text := ""
  summary_palette_color := 0
  message_palette_color := 0
  window_opacity := 1
  update_requested := false
  original_window_pos := ⟨0, 0⟩
  drag_start_pos := ⟨0, 0⟩

/-! Projection lemmas: `Reposition` and `timerStart` leave every field
other than the ones they write unchanged. -/

@[simp] theorem reposition_visible (d : Desktop) (s : OSDState) :
    (Reposition d s).visible = s.visible := rfl

@[simp] theorem reposition_mode (d : Desktop) (s : OSDState) :
    (Reposition d s).mode = s.mode := rfl

@[simp] theorem reposition_timer_interval (d : Desktop) (s : OSDState) :
    (Reposition d s).timer_interval = s.timer_interval := rfl

@[simp] theorem reposition_timer_deadline (d : Desktop) (s : OSDState) :
    (Reposition d s).timer_deadline = s.timer_deadline := rfl

@[simp] theorem reposition_icon_visible (d : Desktop) (s : OSDState) :
    (Reposition d s).icon_visible = s.icon_visible := rfl

@[simp] theorem reposition_icon_pixmap (d : Desktop) (s : OSDState) :
    (Reposition d s).icon_pixmap = s.icon_pixmap := rfl

@[simp] theorem reposition_summary_text (d : Desktop) (s : OSDState) :
    (Reposition d s).summary_text = s.summary_text := rfl

@[simp] theorem reposition_message_text (d : Desktop) (s : OSDState) :
    (Reposition d s).message_text = s.message_text := rfl

@[simp] theorem timerStart_visible (now : Nat) (s : OSDState) :
    (timerStart now s).visible = s.visible := rfl

@[simp] theorem timerStart_mode (now : Nat) (s : OSDState) :
    (timerStart now s).mode = s.mode := rfl

@[simp] theorem timerStart_deadline (now : Nat) (s : OSDState) :
    (timerStart now s).timer_deadline = some (now + s.timer_interval) := rfl

@[simp] theorem timerStart_interval (now : Nat) (s : OSDState) :
    (timerStart now s).timer_interval = s.timer_interval := rfl

@[simp] theorem timerStart_icon_visible (now : Nat) (s : OSDState) :
    (timerStart now s).icon_visible = s.icon_visible := rfl

@[simp] theorem timerStart_icon_pixmap (now : Nat) (s : OSDState) :
    (timerStart now s).icon_pixmap = s.icon_pixmap := rfl

@[simp] theorem timerStart_summary_text (now : Nat) (s : OSDState) :
    (timerStart now s).summary_text = s.summary_text := rfl

@[simp] theorem timerStart_message_text (now : Nat) (s : OSDState) :
    (timerStart now s).message_text = s.message_text := rfl

/-- The resolved geometry does not depend on the widget's size fields,
so resolving after the `resize(sizeHint())` step changes nothing. -/
theorem repositionGeometry_resize (d : Desktop) (s : OSDState) (w h : Int) :
    repositionGeometry d { s with widget_width := w, widget_height := h }
      = repositionGeometry d s := rfl

/-- Unfolding of `repositionGeometry` into the screen-index arithmetic
of the source. -/
theorem repositionGeometry_def (d : Desktop) (s : OSDState) :
    repositionGeometry d s
      = d.availableGeometry
          (if d.screenCount ≤ s.popup_display then -1 else s.popup_display) := rfl

/-- The `-1` sentinel resolves to the default screen's geometry. -/
@[simp] theorem availableGeometry_neg_one (d : Desktop) :
    d.availableGeometry (-1) = d.primaryGeom := by
  unfold Desktop.availableGeometry
  rw [if_neg (by omega)]

/-- When the widget is visible and in Popup mode, `SetMessage` leaves it
visible and reschedules the single-shot timer at `now + interval`. -/
theorem setmessage_deadline_popup (d : Desktop) (now : Nat)
    (summary message : String) (image : Option NSize) (s : OSDState)
    (hv : s.visible = true) (hm : s.mode = Mode.Mode_Popup) :
    (SetMessage d now summary message image s).timer_deadline
        = some (now + s.timer_interval) ∧
    (SetMessage d now summary message image s).visible = true := by
  cases image <;> simp [SetMessage, hv, hm]

/-- Claim C1, counterexample: on a desktop whose second screen has
`left() = 1920`, a stored offset of `(-5000, 0)` makes `Reposition`
clamp x to `0`, strictly left of the resolved screen's geometry: the
widget's bounding box does not stay within the target screen. -/
theorem reposition_escapes_target_screen :
    (Reposition twoScreenDesktop
        { baseState with popup_display := 1, popup_pos := ⟨-5000, 0⟩ }).widget_pos.x
      < (repositionGeometry twoScreenDesktop
        { baseState with popup_display := 1, popup_pos := ⟨-5000, 0⟩ }).left := by
  decide

/-- Claim C1 (amended): `Reposition` clamps with `qBound(0, ·, ·)`, so
the lower clamp bound is the global origin, not `geometry.left()` /
`geometry.top()`.  Whenever the resolved screen's available geometry has
`left() ≤ 0` and `top() ≤ 0` (in particular for the usual screen at the
origin) and the widget fits, the claimed bounds hold. -/
theorem reposition_bounds_in_screen (d : Desktop) (s : OSDState)
    (hl : (repositionGeometry d s).left ≤ 0)
    (ht : (repositionGeometry d s).top ≤ 0)
    (hw : 0 ≤ (repositionGeometry d s).right - s.size_hint.w)
    (hh : 0 ≤ (repositionGeometry d s).bottom - s.size_hint.h) :
    (repositionGeometry d s).left ≤ (Reposition d s).widget_pos.x ∧
    (Reposition d s).widget_pos.x
      ≤ (repositionGeometry d s).right - (Reposition d s).widget_width ∧
    (repositionGeometry d s).top ≤ (Reposition d s).widget_pos.y ∧
    (Reposition d s).widget_pos.y
      ≤ (repositionGeometry d s).bottom - (Reposition d s).widget_height := by
  simp only [Reposition, qBound, repositionGeometry_resize]
  refine ⟨?_, ?_, ?_, ?_⟩ <;> omega

/-- Instantiation of the amended C1 bounds at a concrete desktop and
state. -/
theorem reposition_bounds_in_screen_witness :
    (repositionGeometry baseDesktop baseState).left
        ≤ (Reposition baseDesktop baseState).widget_pos.x ∧
    (Reposition baseDesktop baseState).widget_pos.x
      ≤ (repositionGeometry baseDesktop baseState).right
          - (Reposition baseDesktop baseState).widget_width ∧
    (repositionGeometry baseDesktop baseState).top
        ≤ (Reposition baseDesktop baseState).widget_pos.y ∧
    (Reposition baseDesktop baseState).widget_pos.y
      ≤ (repositionGeometry baseDesktop baseState).bottom
          - (Reposition baseDesktop baseState).widget_height :=
  reposition_bounds_in_screen baseDesktop baseState
    (by decide) (by decide) (by decide) (by decide)

/-! Behaviour of `set_popup_duration` on the timer state. -/

@[simp] theorem set_popup_duration_update_requested (now m : Nat) (s : OSDState) :
    (set_popup_duration now m s).update_requested = s.update_requested := by
  unfold set_popup_duration
  cases s.timer_deadline <;> rfl

@[simp] theorem set_popup_duration_interval (now m : Nat) (s : OSDState) :
    (set_popup_duration now m s).timer_interval = m := by
  unfold set_popup_duration
  cases s.timer_deadline <;> rfl

/-- `setInterval` on an idle timer leaves it idle. -/
theorem set_popup_duration_idle (now m : Nat) (s : OSDState)
    (h : s.timer_deadline = none) :
    (set_popup_duration now m s).timer_deadline = none := by
  simp [set_popup_duration, h]

/-- `setInterval` on an active timer stops and restarts it, so the
pending deadline is rescheduled to `now + msec`. -/
theorem set_popup_duration_running (now m dl : Nat) (s : OSDState)
    (h : s.timer_deadline = some dl) :
    (set_popup_duration now m s).timer_deadline = some (now + m) := by
  simp [set_popup_duration, h]

/-- Claim C2, counterexample: two parts of the claim fail on the code.
`set_foreground_color` contains no `update()` call at all — with the
widget visible and no repaint pending, calling it leaves no repaint
requested (it only rewrites the stored colour and the two labels'
palettes).  And `set_popup_duration` does affect a timer already
running: with a pending auto-hide deadline of 6000, calling it at time
100 with a 2000 ms interval reschedules the deadline to 2100 (the
stop-and-restart of `QTimer::setInterval` on an active timer). -/
theorem setters_claim_counterexample :
    ({ baseState with visible := true } : OSDState).visible = true ∧
    (set_foreground_color 7 { baseState with visible := true }).update_requested
      = false ∧
    ({ baseState with visible := true, timer_deadline := some 6000 } : OSDState).timer_deadline
      = some 6000 ∧
    (set_popup_duration 100 2000
        { baseState with visible := true, timer_deadline := some 6000 }).timer_deadline
      = some 2100 := by
  decide

/-- Claim C2 (amended): `set_background_color` and
`set_background_opacity` request a repaint when the widget is visible;
`set_foreground_color` stores the colour and applies it to both labels'
palettes unconditionally but issues no repaint request of its own;
`set_popup_duration` never requests a repaint and stores the new
interval — an idle timer stays idle (the interval is used by future
starts), but a running timer is stopped and restarted by
`QTimer::setInterval`, rescheduling the pending auto-hide at
`now + msec`. -/
theorem setters_repaint_profile (s sIdle sRun : OSDState) (c1 c2 : Int)
    (o : Rat) (now m dl : Nat)
    (hv : s.visible = true)
    (hIdle : sIdle.timer_deadline = none)
    (hRun : sRun.timer_deadline = some dl) :
    (set_background_color c1 s).update_requested = true ∧
    (set_background_color c1 s).background_color = c1 ∧
    (set_background_opacity o s).update_requested = true ∧
    (set_background_opacity o s).background_opacity = o ∧
    (set_foreground_color c2 s).update_requested = s.update_requested ∧
    (set_foreground_color c2 s).foreground_color = c2 ∧
    (set_foreground_color c2 s).summary_palette_color = c2 ∧
    (set_foreground_color c2 s).message_palette_color = c2 ∧
    (set_popup_duration now m s).update_requested = s.update_requested ∧
    (set_popup_duration now m s).timer_interval = m ∧
    (set_popup_duration now m sIdle).timer_deadline = none ∧
    (set_popup_duration now m sRun).timer_deadline = some (now + m) := by
  refine ⟨?_, ?_, ?_, ?_, ?_, ?_, ?_, ?_,
    set_popup_duration_update_requested now m s,
    set_popup_duration_interval now m s,
    set_popup_duration_idle now m sIdle hIdle,
    set_popup_duration_running now m dl sRun hRun⟩ <;>
  simp [set_background_color, set_background_opacity, set_foreground_color,
    update, hv]

/-- Instantiation of the amended C2 setter profile at concrete visible,
idle-timer and running-timer states. -/
theorem setters_repaint_profile_witness :
    (set_background_color 3 { baseState with visible := true }).update_requested = true ∧
    (set_background_color 3 { baseState with visible := true }).background_color = 3 ∧
    (set_background_opacity (1/2) { baseState with visible := true }).update_requested = true ∧
    (set_background_opacity (1/2) { baseState with visible := true }).background_opacity = 1/2 ∧
    (set_foreground_color 9 { baseState with visible := true }).update_requested
      = ({ baseState with visible := true } : OSDState).update_requested ∧
    (set_foreground_color 9 { baseState with visible := true }).foreground_color = 9 ∧
    (set_foreground_color 9 { baseState with visible := true }).summary_palette_color = 9 ∧
    (set_foreground_color 9 { baseState with visible := true }).message_palette_color = 9 ∧
    (set_popup_duration 100 750 { baseState with visible := true }).update_requested
      = ({ baseState with visible := true } : OSDState).update_requested ∧
    (set_popup_duration 100 750 { baseState with visible := true }).timer_interval = 750 ∧
    (set_popup_duration 100 750 baseState).timer_deadline = none ∧
    (set_popup_duration 100 750
        { baseState with timer_deadline := some 6000 }).timer_deadline
      = some (100 + 750) :=
  setters_repaint_profile { baseState with visible := true } baseState
    { baseState with timer_deadline := some 6000 } 3 9 (1/2) 100 750 6000
    rfl rfl rfl

/-- Claim C3: for a configured display index outside `[0, screenCount)`,
`Reposition` resolves the target geometry to the default screen's
available geometry — exactly what the `-1` sentinel resolves to — and
moves the widget to the same place the sentinel would. -/
theorem reposition_invalid_display_default (d : Desktop) (s : OSDState)
    (h : s.popup_display < 0 ∨ d.screenCount ≤ s.popup_display) :
    repositionGeometry d s = d.primaryGeom ∧
    (Reposition d s).widget_pos
      = (Reposition d { s with popup_display := -1 }).widget_pos := by
  have hcount : (0 : Int) ≤ d.screenCount := Int.ofNat_nonneg _
  have e1 : d.availableGeometry
      (if d.screenCount ≤ s.popup_display then -1 else s.popup_display)
      = d.primaryGeom := by
    rcases h with h' | h'
    · rw [if_neg (by omega)]
      unfold Desktop.availableGeometry
      rw [if_neg (by omega)]
    · rw [if_pos h']
      exact availableGeometry_neg_one d
  have h1 : repositionGeometry d s = d.primaryGeom := e1
  refine ⟨h1, ?_⟩
  simp only [Reposition, repositionGeometry_def]
  simp [e1]

/-- Instantiation of C3 at a two-screen desktop with configured display
index 5. -/
theorem reposition_invalid_display_default_witness :
    repositionGeometry twoScreenDesktop { baseState with popup_display := 5 }
      = twoScreenDesktop.primaryGeom ∧
    (Reposition twoScreenDesktop { baseState with popup_display := 5 }).widget_pos
      = (Reposition twoScreenDesktop
          { { baseState with popup_display := 5 } with popup_display := -1 }).widget_pos :=
  reposition_invalid_display_default twoScreenDesktop
    { baseState with popup_display := 5 } (Or.inr (by decide))

/-- Claim C4: in the paint routine the base rounded-rectangle fill is
drawn with the painter's opacity equal to `background_opacity`, and the
opacity is restored to `1` before the gradient overlay — white, alpha
130 at the top fading to alpha 50 at the bottom — is drawn, for every
value of `background_opacity`. -/
theorem paint_opacity_layers (s : OSDState) :
    ((paintEvent s).ops[8]? = some (PaintOp.drawRoundedRect
        ((widgetRect s).adjusted kDropShadowSize kDropShadowSize
          (-kDropShadowSize) (-kDropShadowSize))
        kBorderRadius kBorderRadius
        (Brush.solid s.background_color) Pen.defaultPen
        s.background_opacity)) ∧
    ((paintEvent s).ops[9]? = some (PaintOp.drawRoundedRect
        ((widgetRect s).adjusted kDropShadowSize kDropShadowSize
          (-kDropShadowSize) (-kDropShadowSize))
        kBorderRadius kBorderRadius
        (Brush.linearGradient 0 0 0 s.widget_height
          [(0, ⟨255, 255, 255, 130⟩), (1, ⟨255, 255, 255, 50⟩)])
        Pen.defaultPen 1)) := by
  constructor <;> rfl

/-- Claim C5: in Draggable mode, a press followed by a move puts the
widget at its position at press time plus the pointer's global delta,
clamped into the available geometry of the screen under the pointer's
current (move-time) position. -/
theorem drag_press_move (d : Desktop) (s : OSDState) (e1 e2 : QMouseEvent)
    (h : s.mode = Mode.Mode_Draggable) :
    (mouseMoveEvent d e2 (mousePressEvent e1 s)).widget_pos.x
      = qBound (d.availableGeometryAt e2.globalPos).left
          (s.widget_pos.x + (e2.globalPos.x - e1.globalPos.x))
          ((d.availableGeometryAt e2.globalPos).right - s.widget_width) ∧
    (mouseMoveEvent d e2 (mousePressEvent e1 s)).widget_pos.y
      = qBound (d.availableGeometryAt e2.globalPos).top
          (s.widget_pos.y + (e2.globalPos.y - e1.globalPos.y))
          ((d.availableGeometryAt e2.globalPos).bottom - s.widget_height) := by
  simp [mousePressEvent, mouseMoveEvent, h]

/-- Instantiation of C5: a drag on the base desktop. -/
theorem drag_press_move_witness :
    (mouseMoveEvent baseDesktop ⟨⟨12, 12⟩, ⟨160, 90⟩⟩
        (mousePressEvent ⟨⟨2, 2⟩, ⟨150, 80⟩⟩
          { baseState with mode := Mode.Mode_Draggable })).widget_pos.x
      = qBound (baseDesktop.availableGeometryAt ⟨160, 90⟩).left
          (({ baseState with mode := Mode.Mode_Draggable } : OSDState).widget_pos.x + (160 - 150))
          ((baseDesktop.availableGeometryAt ⟨160, 90⟩).right
            - ({ baseState with mode := Mode.Mode_Draggable } : OSDState).widget_width) ∧
    (mouseMoveEvent baseDesktop ⟨⟨12, 12⟩, ⟨160, 90⟩⟩
        (mousePressEvent ⟨⟨2, 2⟩, ⟨150, 80⟩⟩
          { baseState with mode := Mode.Mode_Draggable })).widget_pos.y
      = qBound (baseDesktop.availableGeometryAt ⟨160, 90⟩).top
          (({ baseState with mode := Mode.Mode_Draggable } : OSDState).widget_pos.y + (90 - 80))
          ((baseDesktop.availableGeometryAt ⟨160, 90⟩).bottom
            - ({ baseState with mode := Mode.Mode_Draggable } : OSDState).widget_height) :=
  drag_press_move baseDesktop { baseState with mode := Mode.Mode_Draggable }
    ⟨⟨2, 2⟩, ⟨150, 80⟩⟩ ⟨⟨12, 12⟩, ⟨160, 90⟩⟩ rfl

/-- Claim C6: `SetMessage` called at time `T` while the widget is
visible in Popup mode with a 5000 ms interval restarts the single-shot
auto-hide countdown from zero: absent further interaction the widget is
still visible at every time strictly before `T + 5000`. -/
theorem setmessage_restarts_countdown (d : Desktop) (s : OSDState) (T : Nat)
    (summary message : String) (image : Option NSize) (t : Nat)
    (hv : s.visible = true) (hm : s.mode = Mode.Mode_Popup)
    (hi : s.timer_interval = 5000) (ht : t < T + 5000) :
    visibleAt (SetMessage d T summary message image s) t = true := by
  obtain ⟨h1, h2⟩ := setmessage_deadline_popup d T summary message image s hv hm
  have hd : ¬ (T + 5000 ≤ t) := by omega
  simp [visibleAt, autoHiddenBy, h1, h2, hi, hd]

/-- Instantiation of C6: a visible Popup-mode widget receiving a message
at time 1000 is still visible at time 5999. -/
theorem setmessage_restarts_countdown_witness :
    visibleAt (SetMessage baseDesktop 1000 "a" "b" none
      { baseState with visible := true, timer_deadline := some 1500 }) 5999 = true :=
  setmessage_restarts_countdown baseDesktop
    { baseState with visible := true, timer_deadline := some 1500 }
    1000 "a" "b" none 5999 rfl rfl rfl (by omega)

/-- The scaled icon size fits in the 100x100 box and preserves the
aspect ratio up to the integer rounding of `QSize::scale`: the cross
products `scaled.w * h` and `w * scaled.h` (resp. with the roles of the
two axes swapped) differ by less than one rounding unit. -/
theorem scaleKeepAspect_fits (w h : Nat) (hw : 1 ≤ w) (hh : 1 ≤ h) :
    (scaleKeepAspect ⟨w, h⟩ 100 100).w ≤ 100 ∧
    (scaleKeepAspect ⟨w, h⟩ 100 100).h ≤ 100 ∧
    (((scaleKeepAspect ⟨w, h⟩ 100 100).w * h ≤ w * (scaleKeepAspect ⟨w, h⟩ 100 100).h ∧
      w * (scaleKeepAspect ⟨w, h⟩ 100 100).h
        < ((scaleKeepAspect ⟨w, h⟩ 100 100).w + 1) * h) ∨
     ((scaleKeepAspect ⟨w, h⟩ 100 100).h * w ≤ h * (scaleKeepAspect ⟨w, h⟩ 100 100).w ∧
      h * (scaleKeepAspect ⟨w, h⟩ 100 100).w
        < ((scaleKeepAspect ⟨w, h⟩ 100 100).h + 1) * w)) := by
  have hz : ¬ ((⟨w, h⟩ : NSize).w = 0 ∨ (⟨w, h⟩ : NSize).h = 0) := by
    dsimp only
    omega
  have hpos : 0 < h := by omega
  have wpos : 0 < w := by omega
  by_cases hcase : 100 * w / h ≤ 100
  · have hres : scaleKeepAspect ⟨w, h⟩ 100 100 = ⟨100 * w / h, 100⟩ := by
      unfold scaleKeepAspect
      rw [if_neg hz]
      dsimp only
      rw [if_pos hcase]
    rw [hres]
    refine ⟨hcase, le_refl _, Or.inl ⟨?_, ?_⟩⟩
    · calc 100 * w / h * h ≤ 100 * w := Nat.div_mul_le_self _ _
        _ = w * 100 := Nat.mul_comm _ _
    · have e : h * (100 * w / h) + 100 * w % h = 100 * w := Nat.div_add_mod _ _
      have hr : 100 * w % h < h := Nat.mod_lt _ hpos
      calc w * 100 = h * (100 * w / h) + 100 * w % h := by rw [e]; ring
        _ < h * (100 * w / h) + h := Nat.add_lt_add_left hr _
        _ = (100 * w / h + 1) * h := by ring
  · have hres : scaleKeepAspect ⟨w, h⟩ 100 100 = ⟨100, 100 * h / w⟩ := by
      unfold scaleKeepAspect
      rw [if_neg hz]
      dsimp only
      rw [if_neg hcase]
    have h101 : 101 ≤ 100 * w / h := by omega
    have hmul : 101 * h ≤ 100 * w := (Nat.le_div_iff_mul_le hpos).mp h101
    have hhw : h ≤ w := by omega
    rw [hres]
    refine ⟨le_refl _, ?_, Or.inr ⟨?_, ?_⟩⟩
    · calc 100 * h / w ≤ 100 * w / w :=
          Nat.div_le_div_right (Nat.mul_le_mul_left 100 hhw)
        _ = 100 := Nat.mul_div_cancel _ wpos
    · calc 100 * h / w * w ≤ 100 * h := Nat.div_mul_le_self _ _
        _ = h * 100 := Nat.mul_comm _ _
    · have e : w * (100 * h / w) + 100 * h % w = 100 * h := Nat.div_add_mod _ _
      have hr : 100 * h % w < w := Nat.mod_lt _ wpos
      calc h * 100 = w * (100 * h / w) + 100 * h % w := by rw [e]; ring
        _ < w * (100 * h / w) + w := Nat.add_lt_add_left hr _
        _ = (100 * h / w + 1) * w := by ring

/-- `SetMessage` always sets both text fields, shows the icon with the
scaled pixmap when an image is supplied, and hides it otherwise. -/
theorem setmessage_icon_fields (d : Desktop) (now : Nat) (su me : String)
    (img : Option NSize) (s : OSDState) :
    (SetMessage d now su me img s).icon_visible = img.isSome ∧
    (SetMessage d now su me img s).icon_pixmap
      = (match img with
         | some sz => some (scaleKeepAspect sz kMaxIconSize kMaxIconSize)
         | none => s.icon_pixmap) ∧
    (SetMessage d now su me img s).summary_text = su ∧
    (SetMessage d now su me img s).message_text = me := by
  cases img <;> unfold SetMessage <;> dsimp only <;> split_ifs <;> simp

/-- Claim C7: `SetMessage` with a non-null `w x h` image shows the icon
element with the image scaled so that neither dimension exceeds 100
while preserving the aspect ratio (up to `QSize::scale`'s integer
rounding); with a null image it hides the icon element; in both cases
the summary and message text fields are set to the supplied strings. -/
theorem setmessage_icon_scaling (d : Desktop) (now : Nat) (su me : String)
    (s : OSDState) (w h : Nat) (hw : 1 ≤ w) (hh : 1 ≤ h) :
    (SetMessage d now su me (some ⟨w, h⟩) s).icon_visible = true ∧
    (SetMessage d now su me (some ⟨w, h⟩) s).icon_pixmap
      = some (scaleKeepAspect ⟨w, h⟩ kMaxIconSize kMaxIconSize) ∧
    (scaleKeepAspect ⟨w, h⟩ kMaxIconSize kMaxIconSize).w ≤ kMaxIconSize ∧
    (scaleKeepAspect ⟨w, h⟩ kMaxIconSize kMaxIconSize).h ≤ kMaxIconSize ∧
    (((scaleKeepAspect ⟨w, h⟩ kMaxIconSize kMaxIconSize).w * h
        ≤ w * (scaleKeepAspect ⟨w, h⟩ kMaxIconSize kMaxIconSize).h ∧
      w * (scaleKeepAspect ⟨w, h⟩ kMaxIconSize kMaxIconSize).h
        < ((scaleKeepAspect ⟨w, h⟩ kMaxIconSize kMaxIconSize).w + 1) * h) ∨
     ((scaleKeepAspect ⟨w, h⟩ kMaxIconSize kMaxIconSize).h * w
        ≤ h * (scaleKeepAspect ⟨w, h⟩ kMaxIconSize kMaxIconSize).w ∧
      h * (scaleKeepAspect ⟨w, h⟩ kMaxIconSize kMaxIconSize).w
        < ((scaleKeepAspect ⟨w, h⟩ kMaxIconSize kMaxIconSize).h + 1) * w)) ∧
    (SetMessage d now su me (some ⟨w, h⟩) s).summary_text = su ∧
    (SetMessage d now su me (some ⟨w, h⟩) s).message_text = me ∧
    (SetMessage d now su me none s).icon_visible = false ∧
    (SetMessage d now su me none s).summary_text = su ∧
    (SetMessage d now su me none s).message_text = me := by
  obtain ⟨i1, i2, i3, i4⟩ := setmessage_icon_fields d now su me (some ⟨w, h⟩) s
  obtain ⟨j1, _, j3, j4⟩ := setmessage_icon_fields d now su me none s
  obtain ⟨f1, f2, f3⟩ := scaleKeepAspect_fits w h hw hh
  exact ⟨i1, i2, f1, f2, f3, i3, i4, j1, j3, j4⟩

/-- Instantiation of C7 with a 150x50 image: the icon is scaled to
100x33, its texts are set, and a null image hides the icon. -/
theorem setmessage_icon_scaling_witness :
    (SetMessage baseDesktop 0 "s" "m" (some ⟨150, 50⟩) baseState).icon_visible = true ∧
    (SetMessage baseDesktop 0 "s" "m" (some ⟨150, 50⟩) baseState).icon_pixmap
      = some (scaleKeepAspect ⟨150, 50⟩ kMaxIconSize kMaxIconSize) ∧
    (scaleKeepAspect ⟨150, 50⟩ kMaxIconSize kMaxIconSize).w ≤ kMaxIconSize ∧
    (scaleKeepAspect ⟨150, 50⟩ kMaxIconSize kMaxIconSize).h ≤ kMaxIconSize ∧
    (((scaleKeepAspect ⟨150, 50⟩ kMaxIconSize kMaxIconSize).w * 50
        ≤ 150 * (scaleKeepAspect ⟨150, 50⟩ kMaxIconSize kMaxIconSize).h ∧
      150 * (scaleKeepAspect ⟨150, 50⟩ kMaxIconSize kMaxIconSize).h
        < ((scaleKeepAspect ⟨150, 50⟩ kMaxIconSize kMaxIconSize).w + 1) * 50) ∨
     ((scaleKeepAspect ⟨150, 50⟩ kMaxIconSize kMaxIconSize).h * 150
        ≤ 50 * (scaleKeepAspect ⟨150, 50⟩ kMaxIconSize kMaxIconSize).w ∧
      50 * (scaleKeepAspect ⟨150, 50⟩ kMaxIconSize kMaxIconSize).w
        < ((scaleKeepAspect ⟨150, 50⟩ kMaxIconSize kMaxIconSize).h + 1) * 150)) ∧
    (SetMessage baseDesktop 0 "s" "m" (some ⟨150, 50⟩) baseState).summary_text = "s" ∧
    (SetMessage baseDesktop 0 "s" "m" (some ⟨150, 50⟩) baseState).message_text = "m" ∧
    (SetMessage baseDesktop 0 "s" "m" none baseState).icon_visible = false ∧
    (SetMessage baseDesktop 0 "s" "m" none baseState).summary_text = "s" ∧
    (SetMessage baseDesktop 0 "s" "m" none baseState).message_text = "m" :=
  setmessage_icon_scaling baseDesktop 0 "s" "m" baseState 150 50
    (by omega) (by omega)

/-- Claim C8: in Popup mode a mouse press anywhere on the widget hides
it synchronously, whatever the press location. -/
theorem popup_press_hides (e : QMouseEvent) (s : OSDState)
    (h : s.mode = Mode.Mode_Popup) :
    (mousePressEvent e s).visible = false := by
  simp [mousePressEvent, hide, h]

/-- Instantiation of C8 at a concrete visible state and press
location. -/
theorem popup_press_hides_witness :
    ({ baseState with visible := true } : OSDState).mode = Mode.Mode_Popup ∧
    (mousePressEvent ⟨⟨7, 9⟩, ⟨20, 30⟩⟩
      { baseState with visible := true }).visible = false :=
  ⟨rfl, popup_press_hides ⟨⟨7, 9⟩, ⟨20, 30⟩⟩ { baseState with visible := true } rfl⟩

/-! Projection lemmas for `SetMode`. -/

@[simp] theorem setMode_mode (m : Mode) (s : OSDState) :
    (SetMode m s).mode = m := by cases m <;> rfl

@[simp] theorem setMode_foreground_color (m : Mode) (s : OSDState) :
    (SetMode m s).foreground_color = s.foreground_color := by cases m <;> rfl

@[simp] theorem setMode_background_color (m : Mode) (s : OSDState) :
    (SetMode m s).background_color = s.background_color := by cases m <;> rfl

@[simp] theorem setMode_background_opacity (m : Mode) (s : OSDState) :
    (SetMode m s).background_opacity = s.background_opacity := by cases m <;> rfl

@[simp] theorem setMode_popup_pos (m : Mode) (s : OSDState) :
    (SetMode m s).popup_pos = s.popup_pos := by cases m <;> rfl

@[simp] theorem setMode_popup_display (m : Mode) (s : OSDState) :
    (SetMode m s).popup_display = s.popup_display := by cases m <;> rfl

@[simp] theorem setMode_timer_interval (m : Mode) (s : OSDState) :
    (SetMode m s).timer_interval = s.timer_interval := by cases m <;> rfl

@[simp] theorem setMode_timer_deadline (m : Mode) (s : OSDState) :
    (SetMode m s).timer_deadline = s.timer_deadline := by cases m <;> rfl

/-- Any sequence of `SetMode` calls leaves every appearance and timer
field unchanged. -/
theorem setmode_foldl_frame (ms : List Mode) (s : OSDState) :
    (ms.foldl (fun acc m => SetMode m acc) s).foreground_color = s.foreground_color ∧
    (ms.foldl (fun acc m => SetMode m acc) s).background_color = s.background_color ∧
    (ms.foldl (fun acc m => SetMode m acc) s).background_opacity = s.background_opacity ∧
    (ms.foldl (fun acc m => SetMode m acc) s).popup_pos = s.popup_pos ∧
    (ms.foldl (fun acc m => SetMode m acc) s).popup_display = s.popup_display ∧
    (ms.foldl (fun acc m => SetMode m acc) s).timer_interval = s.timer_interval ∧
    (ms.foldl (fun acc m => SetMode m acc) s).timer_deadline = s.timer_deadline := by
  induction ms generalizing s with
  | nil => simp
  | cons m t ih =>
    obtain ⟨a1, a2, a3, a4, a5, a6, a7⟩ := ih (SetMode m s)
    simp only [List.foldl_cons]
    exact ⟨a1.trans (setMode_foreground_color m s),
           a2.trans (setMode_background_color m s),
           a3.trans (setMode_background_opacity m s),
           a4.trans (setMode_popup_pos m s),
           a5.trans (setMode_popup_display m s),
           a6.trans (setMode_timer_interval m s),
           a7.trans (setMode_timer_deadline m s)⟩

/-- Claim C9: `SetMode` stores the mode and sets the matching cursor
(arrow for Popup, open hand for Draggable); any sequence of `SetMode`
calls leaves foreground colour, background colour, background opacity,
popup position, display index and the timer state (interval and
deadline) unchanged. -/
theorem setmode_frame (s : OSDState) (m : Mode) (ms : List Mode) :
    (SetMode m s).mode = m ∧
    (SetMode Mode.Mode_Popup s).cursor = CursorShape.ArrowCursor ∧
    (SetMode Mode.Mode_Draggable s).cursor = CursorShape.OpenHandCursor ∧
    (ms.foldl (fun acc m' => SetMode m' acc) s).foreground_color = s.foreground_color ∧
    (ms.foldl (fun acc m' => SetMode m' acc) s).background_color = s.background_color ∧
    (ms.foldl (fun acc m' => SetMode m' acc) s).background_opacity = s.background_opacity ∧
    (ms.foldl (fun acc m' => SetMode m' acc) s).popup_pos = s.popup_pos ∧
    (ms.foldl (fun acc m' => SetMode m' acc) s).popup_display = s.popup_display ∧
    (ms.foldl (fun acc m' => SetMode m' acc) s).timer_interval = s.timer_interval ∧
    (ms.foldl (fun acc m' => SetMode m' acc) s).timer_deadline = s.timer_deadline := by
  obtain ⟨a1, a2, a3, a4, a5, a6, a7⟩ := setmode_foldl_frame ms s
  exact ⟨setMode_mode m s, rfl, rfl, a1, a2, a3, a4, a5, a6, a7⟩

/-- Claim C10: `SetMessage` on a hidden widget updates icon and texts
but leaves the position and the timer untouched in every mode; the
auto-hide timer is armed exactly by `showEvent` in Popup mode or by a
`SetMessage` call made while visible in Popup mode, and by neither in
Draggable mode. -/
theorem setmessage_hidden_frame (d : Desktop) (now : Nat) (su me : String)
    (img : Option NSize) (s s2 s3 s4 s5 : OSDState)
    (h : s.visible = false)
    (h2v : s2.visible = true) (h2m : s2.mode = Mode.Mode_Popup)
    (h3v : s3.visible = true) (h3m : s3.mode = Mode.Mode_Draggable)
    (h4 : s4.mode = Mode.Mode_Popup) (h5 : s5.mode = Mode.Mode_Draggable) :
    (SetMessage d now su me img s).widget_pos = s.widget_pos ∧
    (SetMessage d now su me img s).timer_deadline = s.timer_deadline ∧
    (SetMessage d now su me img s).timer_interval = s.timer_interval ∧
    (SetMessage d now su me img s).summary_text = su ∧
    (SetMessage d now su me img s).message_text = me ∧
    (SetMessage d now su me img s).icon_visible = img.isSome ∧
    (showEvent d now s4).timer_deadline = some (now + s4.timer_interval) ∧
    (showEvent d now s5).timer_deadline = s5.timer_deadline ∧
    (SetMessage d now su me img s2).timer_deadline = some (now + s2.timer_interval) ∧
    (SetMessage d now su me img s3).timer_deadline = s3.timer_deadline := by
  obtain ⟨k1, _, k3, k4⟩ := setmessage_icon_fields d now su me img s
  have hidden : (SetMessage d now su me img s).widget_pos = s.widget_pos ∧
      (SetMessage d now su me img s).timer_deadline = s.timer_deadline ∧
      (SetMessage d now su me img s).timer_interval = s.timer_interval := by
    cases img <;> simp [SetMessage, h]
  have show4 : (showEvent d now s4).timer_deadline = some (now + s4.timer_interval) := by
    simp [showEvent, h4]
  have show5 : (showEvent d now s5).timer_deadline = s5.timer_deadline := by
    simp [showEvent, h5]
  have vis3 : (SetMessage d now su me img s3).timer_deadline = s3.timer_deadline := by
    cases img <;> simp [SetMessage, h3v, h3m]
  exact ⟨hidden.1, hidden.2.1, hidden.2.2, k3, k4, k1, show4, show5,
    (setmessage_deadline_popup d now su me img s2 h2v h2m).1, vis3⟩

/-- Instantiation of C10 at concrete hidden/visible Popup and Draggable
states. -/
theorem setmessage_hidden_frame_witness :
    (SetMessage baseDesktop 40 "x" "y" none baseState).widget_pos
        = baseState.widget_pos ∧
    (SetMessage baseDesktop 40 "x" "y" none baseState).timer_deadline
        = baseState.timer_deadline ∧
    (SetMessage baseDesktop 40 "x" "y" none baseState).timer_interval
        = baseState.timer_interval ∧
    (SetMessage baseDesktop 40 "x" "y" none baseState).summary_text = "x" ∧
    (SetMessage baseDesktop 40 "x" "y" none baseState).message_text = "y" ∧
    (SetMessage baseDesktop 40 "x" "y" none baseState).icon_visible
        = (none : Option NSize).isSome ∧
    (showEvent baseDesktop 40 baseState).timer_deadline
        = some (40 + baseState.timer_interval) ∧
    (showEvent baseDesktop 40
        { baseState with mode := Mode.Mode_Draggable }).timer_deadline
      = ({ baseState with mode := Mode.Mode_Draggable } : OSDState).timer_deadline ∧
    (SetMessage baseDesktop 40 "x" "y" none
        { baseState with visible := true }).timer_deadline
      = some (40 + ({ baseState with visible := true } : OSDState).timer_interval) ∧
    (SetMessage baseDesktop 40 "x" "y" none
        { baseState with visible := true, mode := Mode.Mode_Draggable }).timer_deadline
      = ({ baseState with visible := true, mode := Mode.Mode_Draggable } : OSDState).timer_deadline :=
  setmessage_hidden_frame baseDesktop 40 "x" "y" none baseState
    { baseState with visible := true }
    { baseState with visible := true, mode := Mode.Mode_Draggable }
    baseState { baseState with mode := Mode.Mode_Draggable }
    rfl rfl rfl rfl rfl rfl rfl

end OSDPretty
